import Mathlib

/-!
Verification of the Flask/SQLAlchemy user-record service in `src/app.py`
(Service B of the repository), plus a spec-modelled Service A.

The Python module is embedded shallowly:

* module-level configuration (lines 7-16) becomes `startup` over an
  explicit environment record;
* the ORM model `UserInput` (lines 22-25) becomes a record of nullable
  columns together with the column constraints checked by the database;
* the `before_first_request` hook `create_tables` (lines 27-29) and the
  route handlers `index` (lines 31-39) and `health` (lines 41-43) become
  state-passing functions on an explicit application state;
* Flask request dispatch (the hook firing before the first handled
  request, strict `request.form` lookup raising a 400, uncaught database
  errors becoming a 500) is made explicit in `dispatch`.

Database effects are modelled by a `dbReachable` flag in the state: an
operation that would contact an unreachable database fails, and the
failure surfaces as HTTP 500, matching the framework's default handling
of uncaught exceptions.
-/

/-- HTTP method of a request; the app only registers GET and POST routes. -/
inductive Method where
  | GET
  | POST
deriving DecidableEq, Repr

/-- An incoming HTTP request: method, path, and the form-encoded body as
an association list of field/value pairs (werkzeug keeps the first value
for a repeated key, which `formLookup` reproduces). -/
structure Request where
  method : Method
  path : String
  form : List (String × String)
deriving DecidableEq, Repr

/-- An HTTP response: status code and body text. -/
structure Response where
  status : Nat
  body : String
deriving DecidableEq, Repr

/-- A row of the `UserInput` table (src/app.py lines 22-25).  The columns
are `Option String` because SQL columns are nullable in general; the
`nullable=False` declarations are enforced as `rowOk` at insert time. -/
structure UserInput where
  name : Option String
  email : Option String
deriving DecidableEq, Repr

/-- The column constraints of the `UserInput` model: `name` is
`String(80), nullable=False` and `email` is `String(120), nullable=False`
(src/app.py lines 24-25).  The database rejects an insert violating them. -/
def rowOk (r : UserInput) : Bool :=
  r.name.isSome && r.email.isSome
    && (r.name.getD "").length ≤ 80 && (r.email.getD "").length ≤ 120

/-- The state of one Service B process and its database: whether the
database is reachable, whether Flask has successfully run the
before-first-request hooks, whether the `UserInput` table exists, and the
rows of the `UserInput` table in insertion order. -/
structure AppState where
  dbReachable : Bool
  firstHandled : Bool
  tableExists : Bool
  rows : List UserInput
deriving DecidableEq, Repr

/-- Strict form lookup, `request.form[key]` (src/app.py lines 34-35):
first value for the key, `none` when the key is absent (in Flask the
absent case raises `BadRequestKeyError`, which `index` turns into 400). -/
def formLookup (form : List (String × String)) (key : String) : Option String :=
  (form.find? (fun p => p.1 = key)).map (fun p => p.2)

/-- `db.session.add(UserInput(...)); db.session.commit()` (src/app.py
lines 36-37): appends the row and commits, or fails (`none`) when the
database is unreachable or a column constraint is violated. -/
def commitInsert (st : AppState) (r : UserInput) : Option AppState :=
  if st.dbReachable && rowOk r then
    some { st with rows := st.rows ++ [r] }
  else
    none

/-- Stand-in for the rendered output of `render_template("form.html")`
(src/app.py line 39); the template file is outside the embedded module
and no claim depends on its markup. -/
def formTemplate : String := "<rendered form.html>"

/-- Default framework responses for a strict-lookup failure, an uncaught
exception, an unknown path, and a disallowed method. -/
def badRequest : Response := { status := 400, body := "Bad Request" }

def internalServerError : Response := { status := 500, body := "Internal Server Error" }

def notFound : Response := { status := 404, body := "Not Found" }

def methodNotAllowed : Response := { status := 405, body := "Method Not Allowed" }

/-- The `index` handler (src/app.py lines 31-39).  On POST it reads
`request.form["name"]` then `request.form["email"]` (a missing field
aborts with 400 before any database access), inserts the row, commits and
returns "Submitted successfully!"; a failed insert surfaces as 500.  On
GET it renders the form template and touches no state. -/
def index (st : AppState) (req : Request) : AppState × Response :=
  if req.method = Method.POST then
    match formLookup req.form "name" with
    | none => (st, badRequest)
    | some name =>
      match formLookup req.form "email" with
      | none => (st, badRequest)
      | some email =>
        match commitInsert st { name := some name, email := some email } with
        | some st' => (st', { status := 200, body := "Submitted successfully!" })
        | none => (st, internalServerError)
  else
    (st, { status := 200, body := formTemplate })

/-- The `health` handler (src/app.py lines 41-43): returns 200 "OK" and
performs no database operation (the Python handler takes no argument and
mentions neither `db` nor `request`). -/
def health (st : AppState) : AppState × Response :=
  (st, { status := 200, body := "OK" })

/-- The `create_tables` hook body, `db.create_all()` (src/app.py lines
27-29): creates the `UserInput` table when it does not exist and leaves
an existing table untouched. -/
def create_tables (st : AppState) : AppState :=
  { st with tableExists := true }

/-- Routing of src/app.py: `/` is registered for GET and POST (line 31),
`/health` for GET only (line 41); any other path is a 404. -/
def route (st : AppState) (req : Request) : AppState × Response :=
  if req.path = "/" then
    index st req
  else if req.path = "/health" then
    if req.method = Method.GET then health st else (st, methodNotAllowed)
  else
    (st, notFound)

/-- Full request dispatch.  Flask runs the `before_first_request` hooks
ahead of every route until they first succeed: on a request arriving with
`firstHandled = false`, `create_tables` runs first — `db.create_all()`
contacts the database, so with the database unreachable the hook raises,
the request fails with 500, and the hook is retried on the next request;
on success the flag is set and the route handler runs. -/
def dispatch (st : AppState) (req : Request) : AppState × Response :=
  if st.firstHandled then
    route st req
  else if st.dbReachable then
    route { create_tables st with firstHandled := true } req
  else
    (st, internalServerError)

/-- The process environment as read at module level (src/app.py lines
7-11): each variable is `none` when unset. -/
structure Env where
  DB_USER : Option String
  DB_PASS : Option String
  DB_HOST : Option String
  DB_NAME : Option String
  DB_PORT : Option String
deriving DecidableEq, Repr

/-- Python truthiness of an environment lookup: `None` and the empty
string are falsy, which is what `all([...])` on line 13 tests. -/
def truthy : Option String → Bool
  | none => false
  | some s => !s.isEmpty

/-- The connection URL format string of src/app.py line 16. -/
def databaseUrl (user pass_ host port name : String) : String :=
  "postgresql://" ++ user ++ ":" ++ pass_ ++ "@" ++ host ++ ":" ++ port ++ "/" ++ name

/-- Module-level startup of src/app.py lines 7-16, which runs before the
server begins handling traffic: read the five variables, default
`DB_PORT` to "5432", raise when any of the four required values is falsy,
otherwise build `DATABASE_URL`. -/
def startup (env : Env) : Except String String :=
  let dbPort := env.DB_PORT.getD "5432"
  if truthy env.DB_USER && truthy env.DB_PASS && truthy env.DB_HOST && truthy env.DB_NAME then
    Except.ok (databaseUrl (env.DB_USER.getD "") (env.DB_PASS.getD "")
      (env.DB_HOST.getD "") dbPort (env.DB_NAME.getD ""))
  else
    Except.error "Database configuration environment variables are missing"

/-- JSON body field lookup for Service A: yields `none` when the field is
absent (no validation beyond the lookup). -/
def jsonLookup (body : List (String × String)) (key : String) : Option String :=
  (body.find? (fun p => p.1 = key)).map (fun p => p.2)

/-- Python string interpolation of a possibly-null value: `None` renders
as the string "None". -/
def pyFormat : Option String → String
  | none => "None"
  | some s => s

/-- The JSON response body of Service A's add endpoint,
`\x7b"message": "<name> added!"\x7d`. -/
def jsonMessage (name : String) : String :=
  "\x7b\"message\": \"" ++ name ++ " added!\"\x7d"

/-- Modelled from the spec: Service A's source file (the JSON API with
`POST /add`, `GET /users` and `GET /`) is not under src/; only src/app.py
(Service B) is.  Per the spec, `POST /add` looks up field `name` in the
JSON body (an absent field yields an absent value), inserts exactly one
row with that literal value into the `users` table, commits, and returns
HTTP 200 with JSON `\x7b"message": "<name> added!"\x7d`, where a
`None`/null name renders as the string "None". -/
def add_user (users : List (Option String)) (body : List (String × String)) :
    List (Option String) × Response :=
  let name := jsonLookup body "name"
  (users ++ [name], { status := 200, body := jsonMessage (pyFormat name) })

/-- Sample state: reachable database, hooks already run, table present,
no rows yet. -/
def readyState : AppState :=
  { dbReachable := true, firstHandled := true, tableExists := true, rows := [] }

/-- Sample state: reachable database, fresh process (no request handled
yet, table not yet created), no rows. -/
def freshState : AppState :=
  { dbReachable := true, firstHandled := false, tableExists := false, rows := [] }

/-- Sample state: fresh process whose database is unreachable. -/
def downState : AppState :=
  { dbReachable := false, firstHandled := false, tableExists := false, rows := [] }

/-- Every branch of the `index` handler leaves the state unchanged or
appends exactly one row to the `UserInput` table. -/
theorem index_state_shape (st : AppState) (req : Request) :
    (index st req).1 = st ∨ ∃ r, (index st req).1 = { st with rows := st.rows ++ [r] } := by
  by_cases hm : req.method = Method.POST
  · rcases hn : formLookup req.form "name" with _ | name
    · left; simp [index, hm, hn]
    · rcases he : formLookup req.form "email" with _ | email
      · left; simp [index, hm, hn, he]
      · by_cases hc : (st.dbReachable && rowOk { name := some name, email := some email }) = true
        · right
          refine ⟨{ name := some name, email := some email }, ?_⟩
          simp [index, hm, hn, he, commitInsert, hc]
        · left; simp [index, hm, hn, he, commitInsert, hc]
  · left; simp [index, hm]

/-- Every route leaves the state unchanged or appends exactly one row. -/
theorem route_state_shape (st : AppState) (req : Request) :
    (route st req).1 = st ∨ ∃ r, (route st req).1 = { st with rows := st.rows ++ [r] } := by
  unfold route
  split
  · exact index_state_shape st req
  · split
    · split
      · left; rfl
      · left; rfl
    · left; rfl

/-- Route handlers never change the `firstHandled` flag. -/
theorem route_firstHandled (st : AppState) (req : Request) :
    (route st req).1.firstHandled = st.firstHandled := by
  rcases route_state_shape st req with h | ⟨r, h⟩ <;> rw [h]

/-- The success path of `POST /`: with the database reachable, both form
fields present and both values within the column sizes, dispatch appends
the submitted row and answers 200 "Submitted successfully!". -/
theorem dispatch_post_success (st : AppState) (req : Request) (n e : String)
    (hdb : st.dbReachable = true)
    (hm : req.method = Method.POST) (hp : req.path = "/")
    (hn : formLookup req.form "name" = some n) (hnl : n.length ≤ 80)
    (he : formLookup req.form "email" = some e) (hel : e.length ≤ 120) :
    (dispatch st req).1.rows = st.rows ++ [{ name := some n, email := some e }]
    ∧ (dispatch st req).2 = { status := 200, body := "Submitted successfully!" } := by
  have hro : rowOk { name := some n, email := some e } = true := by
    simp [rowOk, hnl, hel]
  unfold dispatch
  cases hf : st.firstHandled
  · simp [hdb, route, hp, index, hm, hn, he, commitInsert, create_tables, hro]
  · simp [route, hp, index, hm, hn, he, commitInsert, hdb, hro]

/-- C1: a POST to `/` carrying both form fields `name` and `email`
inserts exactly one row, with exactly the submitted values, into the
`UserInput` table, commits it, and returns HTTP 200 with body
"Submitted successfully!"; the table's row count increases by exactly
one.  Stated on the normal operating regime that the spec's error
taxonomy carves out separately: database reachable and submitted values
within the declared column sizes (violating either is the uncaught-error
path that surfaces as HTTP 500). -/
theorem C1_post_inserts_exactly_one_row (st : AppState) (req : Request) (n e : String)
    (hdb : st.dbReachable = true)
    (hm : req.method = Method.POST) (hp : req.path = "/")
    (hn : formLookup req.form "name" = some n) (hnl : n.length ≤ 80)
    (he : formLookup req.form "email" = some e) (hel : e.length ≤ 120) :
    (dispatch st req).1.rows = st.rows ++ [{ name := some n, email := some e }]
    ∧ (dispatch st req).2 = { status := 200, body := "Submitted successfully!" }
    ∧ (dispatch st req).1.rows.length = st.rows.length + 1 := by
  obtain ⟨h1, h2⟩ := dispatch_post_success st req n e hdb hm hp hn hnl he hel
  refine ⟨h1, h2, ?_⟩
  rw [h1]
  simp

/-- Witness for C1 at a concrete request. -/
theorem C1_post_inserts_exactly_one_row_witness :
    readyState.dbReachable = true
    ∧ formLookup [("name", "Alice"), ("email", "alice@example.com")] "name" = some "Alice"
    ∧ formLookup [("name", "Alice"), ("email", "alice@example.com")] "email"
        = some "alice@example.com"
    ∧ (dispatch readyState
        { method := Method.POST, path := "/",
          form := [("name", "Alice"), ("email", "alice@example.com")] }).1.rows
        = [{ name := some "Alice", email := some "alice@example.com" }]
    ∧ (dispatch readyState
        { method := Method.POST, path := "/",
          form := [("name", "Alice"), ("email", "alice@example.com")] }).2
        = { status := 200, body := "Submitted successfully!" } := by
  have h := C1_post_inserts_exactly_one_row readyState
    { method := Method.POST, path := "/",
      form := [("name", "Alice"), ("email", "alice@example.com")] }
    "Alice" "alice@example.com" rfl rfl rfl rfl (by decide) rfl (by decide)
  exact ⟨rfl, rfl, rfl, by simpa [readyState] using h.1, h.2.1⟩

/-- C2: a POST to `/` with the form field `name` or `email` absent gets
HTTP 400 (the strict `request.form` lookup raises), and no row is added
to the `UserInput` table.  The hypothesis excludes only the state in
which the one-time schema-creation hook itself fails (first request of
the process with the database unreachable), where the request dies with
500 before the handler runs. -/
theorem C2_missing_field_is_400 (st : AppState) (req : Request)
    (hready : st.firstHandled = true ∨ st.dbReachable = true)
    (hm : req.method = Method.POST) (hp : req.path = "/")
    (hmiss : formLookup req.form "name" = none ∨ formLookup req.form "email" = none) :
    (dispatch st req).2 = badRequest ∧ (dispatch st req).1.rows = st.rows := by
  have hroute : ∀ s : AppState, s.rows = st.rows →
      (route s req).2 = badRequest ∧ (route s req).1.rows = st.rows := by
    intro s hs
    rcases hmiss with h | h
    · constructor <;> simp [route, hp, index, hm, h, hs]
    · rcases hn : formLookup req.form "name" with _ | name
      · constructor <;> simp [route, hp, index, hm, hn, hs]
      · constructor <;> simp [route, hp, index, hm, hn, h, hs]
  cases hf : st.firstHandled
  · have hdb : st.dbReachable = true := by
      rcases hready with h | h
      · rw [h] at hf; exact absurd hf (by decide)
      · exact h
    have h := hroute { create_tables st with firstHandled := true } (by simp [create_tables])
    simpa [dispatch, hf, hdb] using h
  · have h := hroute st rfl
    simpa [dispatch, hf] using h

/-- Witness for C2: a fresh process, POST `/` with `name` absent. -/
theorem C2_missing_field_is_400_witness :
    (freshState.firstHandled = true ∨ freshState.dbReachable = true)
    ∧ formLookup [("email", "alice@example.com")] "name" = none
    ∧ (dispatch freshState
        { method := Method.POST, path := "/",
          form := [("email", "alice@example.com")] }).2 = badRequest
    ∧ (dispatch freshState
        { method := Method.POST, path := "/",
          form := [("email", "alice@example.com")] }).1.rows = freshState.rows := by
  have h := C2_missing_field_is_400 freshState
    { method := Method.POST, path := "/", form := [("email", "alice@example.com")] }
    (Or.inr rfl) rfl rfl (Or.inl rfl)
  exact ⟨Or.inr rfl, rfl, h.1, h.2⟩

/-- C3: Service A's `POST /add` with a JSON body containing field `name`
returns HTTP 200 with JSON body `\x7b"message": "<name> added!"\x7d`
for the literal submitted value, and inserts exactly one row into the
`users` table. -/
theorem C3_add_user_inserts_row (users : List (Option String))
    (body : List (String × String)) (n : String)
    (h : jsonLookup body "name" = some n) :
    add_user users body = (users ++ [some n], { status := 200, body := jsonMessage n })
    ∧ (add_user users body).1.length = users.length + 1 := by
  constructor
  · simp [add_user, h, pyFormat]
  · simp [add_user]

/-- Witness for C3 at a concrete request body. -/
theorem C3_add_user_inserts_row_witness :
    jsonLookup [("name", "Alice")] "name" = some "Alice"
    ∧ add_user [] [("name", "Alice")]
        = ([some "Alice"], { status := 200, body := jsonMessage "Alice" })
    ∧ jsonMessage "Alice" = "\x7b\"message\": \"Alice added!\"\x7d"
    ∧ (add_user [] [("name", "Alice")]).1.length = 1 := by
  have h := C3_add_user_inserts_row [] [("name", "Alice")] "Alice" rfl
  exact ⟨rfl, h.1, rfl, h.2⟩

/-- C4, counterexample to the claim as stated: on the first request of a
process whose database is unreachable, `GET /health` answers 500, not
200 "OK" — Flask runs the `before_first_request` hook `create_tables`
ahead of the handler, and `db.create_all()` requires the database.  So
the response is not independent of database reachability. -/
theorem C4_health_counterexample :
    (dispatch downState { method := Method.GET, path := "/health", form := [] }).2.status = 500
    ∧ (dispatch downState { method := Method.GET, path := "/health", form := [] }).2
        ≠ { status := 200, body := "OK" } := by
  constructor
  · rfl
  · decide

/-- C4 as amended: `GET /health` answers HTTP 200 with body "OK"
whatever the database state (table existing or not, any rows), and the
`health` handler itself performs no database operation — provided the
request is not the process's first with the database unreachable, in
which case the schema-creation hook fails first and the request gets
500. -/
theorem C4_health_always_ok (st : AppState) (req : Request)
    (hready : st.firstHandled = true ∨ st.dbReachable = true)
    (hm : req.method = Method.GET) (hp : req.path = "/health") :
    (dispatch st req).2 = { status := 200, body := "OK" }
    ∧ (dispatch st req).1.rows = st.rows
    ∧ (∀ s : AppState, health s = (s, { status := 200, body := "OK" })) := by
  have hgoal : ∀ s : AppState, s.rows = st.rows →
      (route s req).2 = { status := 200, body := "OK" } ∧ (route s req).1.rows = st.rows := by
    intro s hs
    constructor <;> simp [route, hp, hm, health, hs]
  cases hf : st.firstHandled
  · have hdb : st.dbReachable = true := by
      rcases hready with h | h
      · rw [h] at hf; exact absurd hf (by decide)
      · exact h
    have h := hgoal { create_tables st with firstHandled := true } (by simp [create_tables])
    exact ⟨by simpa [dispatch, hf, hdb] using h.1, by simpa [dispatch, hf, hdb] using h.2,
      fun s => rfl⟩
  · have h := hgoal st rfl
    exact ⟨by simpa [dispatch, hf] using h.1, by simpa [dispatch, hf] using h.2, fun s => rfl⟩

/-- Witness for the amended C4 at a concrete state and request. -/
theorem C4_health_always_ok_witness :
    (freshState.firstHandled = true ∨ freshState.dbReachable = true)
    ∧ (dispatch freshState { method := Method.GET, path := "/health", form := [] }).2
        = { status := 200, body := "OK" }
    ∧ (dispatch freshState { method := Method.GET, path := "/health", form := [] }).1.rows
        = freshState.rows := by
  have h := C4_health_always_ok freshState
    { method := Method.GET, path := "/health", form := [] } (Or.inr rfl) rfl rfl
  exact ⟨Or.inr rfl, h.1, h.2.1⟩

/-- C5: module-level startup raises when any of DB_USER, DB_PASS,
DB_HOST, DB_NAME is absent from the environment, before any traffic is
served; DB_PORT is optional, and when unset the port "5432" is used in
the database connection URL. -/
theorem C5_startup_env_validation :
    (∀ env : Env,
      (env.DB_USER = none ∨ env.DB_PASS = none ∨ env.DB_HOST = none ∨ env.DB_NAME = none) →
      startup env = Except.error "Database configuration environment variables are missing")
    ∧ (∀ u p h n : String, u ≠ "" → p ≠ "" → h ≠ "" → n ≠ "" →
      startup { DB_USER := some u, DB_PASS := some p, DB_HOST := some h,
                DB_NAME := some n, DB_PORT := none }
        = Except.ok (databaseUrl u p h "5432" n)) := by
  constructor
  · intro env hmiss
    unfold startup
    rcases hmiss with h | h | h | h <;> simp [h, truthy]
  · intro u p h n hu hp hh hn
    have hu' : u.isEmpty = false := by
      rw [Bool.eq_false_iff]
      simpa [String.isEmpty_iff] using hu
    have hp' : p.isEmpty = false := by
      rw [Bool.eq_false_iff]
      simpa [String.isEmpty_iff] using hp
    have hh' : h.isEmpty = false := by
      rw [Bool.eq_false_iff]
      simpa [String.isEmpty_iff] using hh
    have hn' : n.isEmpty = false := by
      rw [Bool.eq_false_iff]
      simpa [String.isEmpty_iff] using hn
    unfold startup
    simp [truthy, hu', hp', hh', hn']

/-- Witness for C5: a concrete environment missing DB_PASS raises, and a
complete environment without DB_PORT connects on port 5432. -/
theorem C5_startup_env_validation_witness :
    ({ DB_USER := some "u", DB_PASS := none, DB_HOST := some "db",
       DB_NAME := some "app", DB_PORT := none : Env }.DB_PASS = none)
    ∧ startup { DB_USER := some "u", DB_PASS := none, DB_HOST := some "db",
                DB_NAME := some "app", DB_PORT := none }
        = Except.error "Database configuration environment variables are missing"
    ∧ startup { DB_USER := some "u", DB_PASS := some "p", DB_HOST := some "db",
                DB_NAME := some "app", DB_PORT := none }
        = Except.ok (databaseUrl "u" "p" "db" "5432" "app")
    ∧ databaseUrl "u" "p" "db" "5432" "app" = "postgresql://u:p@db:5432/app" := by
  refine ⟨rfl, ?_, ?_, rfl⟩
  · exact C5_startup_env_validation.1 _ (Or.inr (Or.inl rfl))
  · exact C5_startup_env_validation.2 "u" "p" "db" "app"
      (by decide) (by decide) (by decide) (by decide)

/-- C6: the `UserInput` table is created before the first request is
handled, if it does not already exist; `create_tables` is idempotent and
leaves an existing table (and all rows) unchanged; and the step runs
only on a request arriving before the first one was handled — once the
flag is set, dispatch goes straight to the route handler. -/
theorem C6_lazy_schema_creation :
    (∀ st : AppState, (create_tables st).tableExists = true ∧ (create_tables st).rows = st.rows)
    ∧ (∀ st : AppState, create_tables (create_tables st) = create_tables st)
    ∧ (∀ st : AppState, st.tableExists = true → create_tables st = st)
    ∧ (∀ (st : AppState) (req : Request), st.firstHandled = false → st.dbReachable = true →
        dispatch st req = route { create_tables st with firstHandled := true } req)
    ∧ (∀ (st : AppState) (req : Request), st.firstHandled = true →
        dispatch st req = route st req)
    ∧ (∀ (st : AppState) (req : Request), st.dbReachable = true →
        (dispatch st req).1.firstHandled = true) := by
  refine ⟨fun st => ⟨rfl, rfl⟩, fun st => rfl, ?_, ?_, ?_, ?_⟩
  · intro st h
    unfold create_tables
    cases st
    simp_all
  · intro st req h1 h2
    simp [dispatch, h1, h2]
  · intro st req h
    simp [dispatch, h]
  · intro st req hdb
    cases hf : st.firstHandled
    · rw [show dispatch st req = route { create_tables st with firstHandled := true } req from
        by simp [dispatch, hf, hdb]]
      rw [route_firstHandled]
    · rw [show dispatch st req = route st req from by simp [dispatch, hf]]
      rw [route_firstHandled]
      exact hf

/-- Witness for C6 at concrete states and a concrete request. -/
theorem C6_lazy_schema_creation_witness :
    freshState.firstHandled = false
    ∧ freshState.dbReachable = true
    ∧ dispatch freshState { method := Method.GET, path := "/health", form := [] }
        = route { create_tables freshState with firstHandled := true }
            { method := Method.GET, path := "/health", form := [] }
    ∧ readyState.tableExists = true
    ∧ create_tables readyState = readyState
    ∧ (dispatch freshState { method := Method.GET, path := "/health", form := [] }).1.firstHandled
        = true := by
  refine ⟨rfl, rfl, ?_, rfl, ?_, ?_⟩
  · exact C6_lazy_schema_creation.2.2.2.1 freshState
      { method := Method.GET, path := "/health", form := [] } rfl rfl
  · exact C6_lazy_schema_creation.2.2.1 readyState rfl
  · exact C6_lazy_schema_creation.2.2.2.2.2 freshState
      { method := Method.GET, path := "/health", form := [] } rfl

/-- C7: no exposed operation removes or modifies an existing row.  Every
dispatched request either leaves the `UserInput` rows unchanged or
appends exactly one new row; in particular the old rows survive as the
unchanged initial segment of the new table. -/
theorem C7_rows_append_only (st : AppState) (req : Request) :
    ((dispatch st req).1.rows = st.rows ∨ ∃ r, (dispatch st req).1.rows = st.rows ++ [r])
    ∧ (dispatch st req).1.rows.take st.rows.length = st.rows := by
  have hshape : (dispatch st req).1.rows = st.rows
      ∨ ∃ r, (dispatch st req).1.rows = st.rows ++ [r] := by
    cases hf : st.firstHandled
    · cases hdb : st.dbReachable
      · left; simp [dispatch, hf, hdb]
      · have hd : dispatch st req = route { create_tables st with firstHandled := true } req := by
          simp [dispatch, hf, hdb]
        rw [hd]
        rcases route_state_shape { create_tables st with firstHandled := true } req with h | ⟨r, h⟩
        · left; rw [h]; simp [create_tables]
        · right; exact ⟨r, by rw [h]; simp [create_tables]⟩
    · have hd : dispatch st req = route st req := by
        simp [dispatch, hf]
      rw [hd]
      rcases route_state_shape st req with h | ⟨r, h⟩
      · left; rw [h]
      · right; exact ⟨r, by rw [h]⟩
  refine ⟨hshape, ?_⟩
  rcases hshape with h | ⟨r, h⟩
  · rw [h]
    simp
  · rw [h]
    exact List.take_left st.rows [r]

/-- C8: a POST to `/` whose `name` and `email` fields are present but
are empty strings succeeds: the strict lookup checks presence, not
non-emptiness; the `nullable=False` column constraints accept empty
strings; a row with empty name and email is appended; the response is
HTTP 200 "Submitted successfully!". -/
theorem C8_empty_fields_accepted (st : AppState) (req : Request)
    (hdb : st.dbReachable = true)
    (hm : req.method = Method.POST) (hp : req.path = "/")
    (hn : formLookup req.form "name" = some "")
    (he : formLookup req.form "email" = some "") :
    rowOk { name := some "", email := some "" } = true
    ∧ (dispatch st req).1.rows = st.rows ++ [{ name := some "", email := some "" }]
    ∧ (dispatch st req).2 = { status := 200, body := "Submitted successfully!" } := by
  obtain ⟨h1, h2⟩ := dispatch_post_success st req "" "" hdb hm hp hn (by decide) he (by decide)
  exact ⟨by decide, h1, h2⟩

/-- Witness for C8 at a concrete request with empty fields. -/
theorem C8_empty_fields_accepted_witness :
    readyState.dbReachable = true
    ∧ formLookup [("name", ""), ("email", "")] "name" = some ""
    ∧ formLookup [("name", ""), ("email", "")] "email" = some ""
    ∧ (dispatch readyState
        { method := Method.POST, path := "/", form := [("name", ""), ("email", "")] }).1.rows
        = [{ name := some "", email := some "" }]
    ∧ (dispatch readyState
        { method := Method.POST, path := "/", form := [("name", ""), ("email", "")] }).2
        = { status := 200, body := "Submitted successfully!" } := by
  have h := C8_empty_fields_accepted readyState
    { method := Method.POST, path := "/", form := [("name", ""), ("email", "")] }
    rfl rfl rfl rfl rfl
  exact ⟨rfl, rfl, rfl, by simpa [readyState] using h.2.1, h.2.2⟩

/-- C9: a GET request to `/` leaves the database unchanged: the GET
branch of `index` only renders the form template, returning the state
untouched, and dispatching a GET `/` request preserves the rows. -/
theorem C9_get_root_reads_only (st : AppState) (req : Request)
    (hm : req.method = Method.GET) (hp : req.path = "/") :
    index st req = (st, { status := 200, body := formTemplate })
    ∧ (dispatch st req).1.rows = st.rows := by
  have hidx : ∀ s : AppState, index s req = (s, { status := 200, body := formTemplate }) := by
    intro s
    simp [index, hm]
  refine ⟨hidx st, ?_⟩
  cases hf : st.firstHandled
  · cases hdb : st.dbReachable
    · simp [dispatch, hf, hdb]
    · simp [dispatch, hf, hdb, route, hp, hidx, create_tables]
  · simp [dispatch, hf, route, hp, hidx]

/-- Witness for C9 at a concrete GET request. -/
theorem C9_get_root_reads_only_witness :
    ({ method := Method.GET, path := "/", form := [] } : Request).method = Method.GET
    ∧ index readyState { method := Method.GET, path := "/", form := [] }
        = (readyState, { status := 200, body := formTemplate })
    ∧ (dispatch readyState { method := Method.GET, path := "/", form := [] }).1.rows
        = readyState.rows := by
  have h := C9_get_root_reads_only readyState
    { method := Method.GET, path := "/", form := [] } rfl rfl
  exact ⟨rfl, h.1, h.2⟩

/-- C10: any two successful POST `/` submissions get identical
responses — status 200 with the constant body
"Submitted successfully!" — whatever the submitted values and whatever
the states; no submitted input is echoed into the response. -/
theorem C10_success_response_constant
    (st₁ st₂ : AppState) (req₁ req₂ : Request) (n₁ e₁ n₂ e₂ : String)
    (hdb₁ : st₁.dbReachable = true)
    (hm₁ : req₁.method = Method.POST) (hp₁ : req₁.path = "/")
    (hn₁ : formLookup req₁.form "name" = some n₁) (hnl₁ : n₁.length ≤ 80)
    (he₁ : formLookup req₁.form "email" = some e₁) (hel₁ : e₁.length ≤ 120)
    (hdb₂ : st₂.dbReachable = true)
    (hm₂ : req₂.method = Method.POST) (hp₂ : req₂.path = "/")
    (hn₂ : formLookup req₂.form "name" = some n₂) (hnl₂ : n₂.length ≤ 80)
    (he₂ : formLookup req₂.form "email" = some e₂) (hel₂ : e₂.length ≤ 120) :
    (dispatch st₁ req₁).2 = (dispatch st₂ req₂).2
    ∧ (dispatch st₁ req₁).2 = { status := 200, body := "Submitted successfully!" } := by
  have h₁ := (dispatch_post_success st₁ req₁ n₁ e₁ hdb₁ hm₁ hp₁ hn₁ hnl₁ he₁ hel₁).2
  have h₂ := (dispatch_post_success st₂ req₂ n₂ e₂ hdb₂ hm₂ hp₂ hn₂ hnl₂ he₂ hel₂).2
  exact ⟨h₁.trans h₂.symm, h₁⟩

/-- Witness for C10: two submissions with different values and different
states get the same response. -/
theorem C10_success_response_constant_witness :
    formLookup [("name", "Alice"), ("email", "a@x.io")] "name" = some "Alice"
    ∧ formLookup [("name", "Bob"), ("email", "b@y.io")] "name" = some "Bob"
    ∧ (dispatch readyState
        { method := Method.POST, path := "/",
          form := [("name", "Alice"), ("email", "a@x.io")] }).2
      = (dispatch freshState
        { method := Method.POST, path := "/",
          form := [("name", "Bob"), ("email", "b@y.io")] }).2
    ∧ (dispatch readyState
        { method := Method.POST, path := "/",
          form := [("name", "Alice"), ("email", "a@x.io")] }).2
      = { status := 200, body := "Submitted successfully!" } := by
  have h := C10_success_response_constant readyState freshState
    { method := Method.POST, path := "/", form := [("name", "Alice"), ("email", "a@x.io")] }
    { method := Method.POST, path := "/", form := [("name", "Bob"), ("email", "b@y.io")] }
    "Alice" "a@x.io" "Bob" "b@y.io"
    rfl rfl rfl rfl (by decide) rfl (by decide)
    rfl rfl rfl rfl (by decide) rfl (by decide)
  exact ⟨rfl, rfl, h.1, h.2⟩
